import Mathlib

/-!
Verification of the ag-ui-wasm Rust SDK's event model and SSE codec.

This file is a shallow embedding of the code in
`rust-sdk/ag-ui-wasm/src/core/types.rs`, `core/events.rs`,
`encoder/sse_encoder.rs` and `stream/event_stream.rs`.

Modelling conventions:
* JSON documents are the inductive `Json`; `serde_json` numbers are
  modelled as integers (no claim exercises fractional or exponent
  number syntax).
* `chrono::DateTime<Utc>` values are modelled by their RFC3339 wire
  string; the decoder accepts any JSON string in a `timestamp` field
  (date-format validation is not exercised by any claim).
* `HashMap<String, Value>` is modelled as an association list in
  serialization order.
* serde's derived deserializers ignore unknown object fields; the
  `#[serde(untagged)]` enum `EventData` tries its variants in
  declaration order and returns the first success; the
  `#[serde(flatten)]` attribute on `BaseEvent.data` passes every field
  not consumed by the envelope (`type`, `timestamp`, `raw_event`) on to
  the `EventData` deserializer.  All three behaviours are embedded
  explicitly below.
-/

namespace AgUi

/-- JSON values, as produced and consumed by `serde_json`.  Numbers are
restricted to integers (see the file comment). -/
inductive Json where
  | null : Json
  | bool : Bool → Json
  | num : Int → Json
  | str : String → Json
  | arr : List Json → Json
  | obj : List (String × Json) → Json
deriving Repr

/-- `enum Role` from `core/types.rs`, serialized with
`rename_all = "lowercase"`. -/
inductive Role where
  | Developer
  | User
  | Assistant
  | System
  | Tool
deriving DecidableEq, Repr

/-- The lowercase wire string of a `Role` (serde `rename_all = "lowercase"`). -/
def roleToString : Role → String
  | .Developer => "developer"
  | .User => "user"
  | .Assistant => "assistant"
  | .System => "system"
  | .Tool => "tool"

/-- Deserialization of a `Role` from its wire string; any other string is a
serde error, modelled as `none`. -/
def roleFromString (s : String) : Option Role :=
  if s = "developer" then some .Developer
  else if s = "user" then some .User
  else if s = "assistant" then some .Assistant
  else if s = "system" then some .System
  else if s = "tool" then some .Tool
  else none

/-- `enum EventType` from `core/events.rs` (16 variants), serialized with
`rename_all = "SCREAMING_SNAKE_CASE"`. -/
inductive EventType where
  | RunStarted
  | RunFinished
  | RunAborted
  | TextMessageStart
  | TextMessageContent
  | TextMessageChunk
  | TextMessageEnd
  | MessagesSnapshot
  | ToolCallStart
  | ToolCallChunk
  | ToolCallEnd
  | ToolCallResult
  | StateSnapshot
  | StateDelta
  | Error
deriving DecidableEq, Repr

/-- The SCREAMING_SNAKE_CASE wire string of an `EventType`. -/
def eventTypeToString : EventType → String
  | .RunStarted => "RUN_STARTED"
  | .RunFinished => "RUN_FINISHED"
  | .RunAborted => "RUN_ABORTED"
  | .TextMessageStart => "TEXT_MESSAGE_START"
  | .TextMessageContent => "TEXT_MESSAGE_CONTENT"
  | .TextMessageChunk => "TEXT_MESSAGE_CHUNK"
  | .TextMessageEnd => "TEXT_MESSAGE_END"
  | .MessagesSnapshot => "MESSAGES_SNAPSHOT"
  | .ToolCallStart => "TOOL_CALL_START"
  | .ToolCallChunk => "TOOL_CALL_CHUNK"
  | .ToolCallEnd => "TOOL_CALL_END"
  | .ToolCallResult => "TOOL_CALL_RESULT"
  | .StateSnapshot => "STATE_SNAPSHOT"
  | .StateDelta => "STATE_DELTA"
  | .Error => "ERROR"

/-- Deserialization of an `EventType` from its wire string; an unknown string
is a serde "unknown variant" error, modelled as `none`. -/
def eventTypeFromString (s : String) : Option EventType :=
  if s = "RUN_STARTED" then some .RunStarted
  else if s = "RUN_FINISHED" then some .RunFinished
  else if s = "RUN_ABORTED" then some .RunAborted
  else if s = "TEXT_MESSAGE_START" then some .TextMessageStart
  else if s = "TEXT_MESSAGE_CONTENT" then some .TextMessageContent
  else if s = "TEXT_MESSAGE_CHUNK" then some .TextMessageChunk
  else if s = "TEXT_MESSAGE_END" then some .TextMessageEnd
  else if s = "MESSAGES_SNAPSHOT" then some .MessagesSnapshot
  else if s = "TOOL_CALL_START" then some .ToolCallStart
  else if s = "TOOL_CALL_CHUNK" then some .ToolCallChunk
  else if s = "TOOL_CALL_END" then some .ToolCallEnd
  else if s = "TOOL_CALL_RESULT" then some .ToolCallResult
  else if s = "STATE_SNAPSHOT" then some .StateSnapshot
  else if s = "STATE_DELTA" then some .StateDelta
  else if s = "ERROR" then some .Error
  else none

/-- `struct FunctionCall` from `core/types.rs`. -/
structure FunctionCall where
  name : String
  arguments : Option String
deriving Repr

/-- `struct ToolCall` from `core/types.rs`; `arguments` is an optional
`serde_json::Value`. -/
structure ToolCall where
  id : String
  name : String
  arguments : Option Json
deriving Repr

/-- `struct ToolResult` from `core/types.rs`; `result` is a required
`serde_json::Value`. -/
structure ToolResult where
  tool_call_id : String
  result : Json
  error : Option String
deriving Repr

/-- `type State = HashMap<String, serde_json::Value>` from `core/types.rs`,
modelled as an association list. -/
abbrev State := List (String × Json)

/-- `struct Message` from `core/types.rs`.  `metadata` is a
`HashMap<String, Value>`, `created_at` a `DateTime<Utc>` (modelled by its
wire string). -/
structure Message where
  id : String
  role : Role
  content : String
  name : Option String
  tool_call_id : Option String
  tool_calls : Option (List ToolCall)
  function_call : Option FunctionCall
  metadata : Option (List (String × Json))
  created_at : Option String
deriving Repr

/-- `struct RunStartedEvent` from `core/events.rs`. -/
structure RunStartedEvent where
  thread_id : String
  run_id : String
deriving Repr

/-- `struct RunFinishedEvent` from `core/events.rs`. -/
structure RunFinishedEvent where
  thread_id : String
  run_id : String
deriving Repr

/-- `struct RunAbortedEvent` from `core/events.rs`. -/
structure RunAbortedEvent where
  thread_id : String
  run_id : String
  reason : Option String
deriving Repr

/-- `struct TextMessageStartEvent` from `core/events.rs`. -/
structure TextMessageStartEvent where
  message_id : String
  role : Option Role
deriving Repr

/-- `struct TextMessageContentEvent` from `core/events.rs`. -/
structure TextMessageContentEvent where
  message_id : String
  delta : String
deriving Repr

/-- `struct TextMessageChunkEvent` from `core/events.rs`. -/
structure TextMessageChunkEvent where
  message_id : String
  delta : String
deriving Repr

/-- `struct TextMessageEndEvent` from `core/events.rs`. -/
structure TextMessageEndEvent where
  message_id : String
deriving Repr

/-- `struct MessagesSnapshotEvent` from `core/events.rs`. -/
structure MessagesSnapshotEvent where
  messages : List Message
deriving Repr

/-- `struct ToolCallStartEvent` from `core/events.rs`. -/
structure ToolCallStartEvent where
  tool_call_id : String
  tool_name : String
  parent_message_id : Option String
deriving Repr

/-- `struct ToolCallChunkEvent` from `core/events.rs`. -/
structure ToolCallChunkEvent where
  tool_call_id : String
  delta : String
deriving Repr

/-- `struct ToolCallEndEvent` from `core/events.rs`. -/
structure ToolCallEndEvent where
  tool_call_id : String
  tool_call : Option ToolCall
deriving Repr

/-- `struct ToolCallResultEvent` from `core/events.rs`. -/
structure ToolCallResultEvent where
  tool_result : ToolResult
deriving Repr

/-- `struct StateSnapshotEvent` from `core/events.rs`. -/
structure StateSnapshotEvent where
  state : State

/-- `struct StateDeltaEvent` from `core/events.rs`; `delta` is an arbitrary
`serde_json::Value`. -/
structure StateDeltaEvent where
  delta : Json
deriving Repr

/-- `struct ErrorEvent` from `core/events.rs`. -/
structure ErrorEvent where
  error : String
  code : Option String
  details : Option Json
deriving Repr

/-- `enum EventData` from `core/events.rs`, declared
`#[serde(untagged)]`; variant order matters for deserialization. -/
inductive EventData where
  | RunStarted : RunStartedEvent → EventData
  | RunFinished : RunFinishedEvent → EventData
  | RunAborted : RunAbortedEvent → EventData
  | TextMessageStart : TextMessageStartEvent → EventData
  | TextMessageContent : TextMessageContentEvent → EventData
  | TextMessageChunk : TextMessageChunkEvent → EventData
  | TextMessageEnd : TextMessageEndEvent → EventData
  | MessagesSnapshot : MessagesSnapshotEvent → EventData
  | ToolCallStart : ToolCallStartEvent → EventData
  | ToolCallChunk : ToolCallChunkEvent → EventData
  | ToolCallEnd : ToolCallEndEvent → EventData
  | ToolCallResult : ToolCallResultEvent → EventData
  | StateSnapshot : StateSnapshotEvent → EventData
  | StateDelta : StateDeltaEvent → EventData
  | Error : ErrorEvent → EventData

/-- Index of an `EventData` constructor in declaration order; used to state
that two payloads are distinct variants. -/
def EventData.ctorIdx : EventData → Nat
  | .RunStarted _ => 0
  | .RunFinished _ => 1
  | .RunAborted _ => 2
  | .TextMessageStart _ => 3
  | .TextMessageContent _ => 4
  | .TextMessageChunk _ => 5
  | .TextMessageEnd _ => 6
  | .MessagesSnapshot _ => 7
  | .ToolCallStart _ => 8
  | .ToolCallChunk _ => 9
  | .ToolCallEnd _ => 10
  | .ToolCallResult _ => 11
  | .StateSnapshot _ => 12
  | .StateDelta _ => 13
  | .Error _ => 14

/-- Whether an `EventType` tag and an `EventData` variant agree, in the sense
of the spec's tag/payload invariant. -/
def eventDataMatchesType : EventType → EventData → Bool
  | .RunStarted, .RunStarted _ => true
  | .RunFinished, .RunFinished _ => true
  | .RunAborted, .RunAborted _ => true
  | .TextMessageStart, .TextMessageStart _ => true
  | .TextMessageContent, .TextMessageContent _ => true
  | .TextMessageChunk, .TextMessageChunk _ => true
  | .TextMessageEnd, .TextMessageEnd _ => true
  | .MessagesSnapshot, .MessagesSnapshot _ => true
  | .ToolCallStart, .ToolCallStart _ => true
  | .ToolCallChunk, .ToolCallChunk _ => true
  | .ToolCallEnd, .ToolCallEnd _ => true
  | .ToolCallResult, .ToolCallResult _ => true
  | .StateSnapshot, .StateSnapshot _ => true
  | .StateDelta, .StateDelta _ => true
  | .Error, .Error _ => true
  | _, _ => false

/-- `struct BaseEvent` from `core/events.rs`: the envelope.  `timestamp` is an
optional `DateTime<Utc>` (modelled by its wire string), `raw_event` an
optional `serde_json::Value`, and `data` is flattened onto the envelope. -/
structure BaseEvent where
  event_type : EventType
  timestamp : Option String
  raw_event : Option Json
  data : EventData

/-! ## Serialization (serde `Serialize` derives)

Each struct serializes to a JSON object listing its fields in declaration
order; every `Option` field carries
`#[serde(skip_serializing_if = "Option::is_none")]` in the source, embedded
here by `optField`. -/

/-- An optional struct field: absent options contribute no key at all
(`skip_serializing_if = "Option::is_none"`). -/
def optField (k : String) (v : Option Json) : List (String × Json) :=
  match v with
  | none => []
  | some j => [(k, j)]

/-- Serialization of `FunctionCall`. -/
def serializeFunctionCall (fc : FunctionCall) : Json :=
  .obj ([("name", .str fc.name)] ++ optField "arguments" (fc.arguments.map .str))

/-- Serialization of `ToolCall`. -/
def serializeToolCall (tc : ToolCall) : Json :=
  .obj ([("id", .str tc.id), ("name", .str tc.name)]
    ++ optField "arguments" tc.arguments)

/-- Serialization of `ToolResult`. -/
def serializeToolResult (tr : ToolResult) : Json :=
  .obj ([("tool_call_id", .str tr.tool_call_id), ("result", tr.result)]
    ++ optField "error" (tr.error.map .str))

/-- Serialization of `Message` (fields in declaration order, absent options
omitted). -/
def serializeMessage (m : Message) : Json :=
  .obj ([("id", .str m.id), ("role", .str (roleToString m.role)),
         ("content", .str m.content)]
    ++ optField "name" (m.name.map .str)
    ++ optField "tool_call_id" (m.tool_call_id.map .str)
    ++ optField "tool_calls" (m.tool_calls.map (fun l => .arr (l.map serializeToolCall)))
    ++ optField "function_call" (m.function_call.map serializeFunctionCall)
    ++ optField "metadata" (m.metadata.map .obj)
    ++ optField "created_at" (m.created_at.map .str))

/-- The flattened payload fields contributed by an `EventData` value
(serde serializes the untagged variant's struct fields in declaration
order). -/
def eventDataFields : EventData → List (String × Json)
  | .RunStarted v => [("thread_id", .str v.thread_id), ("run_id", .str v.run_id)]
  | .RunFinished v => [("thread_id", .str v.thread_id), ("run_id", .str v.run_id)]
  | .RunAborted v =>
      [("thread_id", .str v.thread_id), ("run_id", .str v.run_id)]
        ++ optField "reason" (v.reason.map .str)
  | .TextMessageStart v =>
      [("message_id", .str v.message_id)]
        ++ optField "role" (v.role.map (fun r => .str (roleToString r)))
  | .TextMessageContent v =>
      [("message_id", .str v.message_id), ("delta", .str v.delta)]
  | .TextMessageChunk v =>
      [("message_id", .str v.message_id), ("delta", .str v.delta)]
  | .TextMessageEnd v => [("message_id", .str v.message_id)]
  | .MessagesSnapshot v => [("messages", .arr (v.messages.map serializeMessage))]
  | .ToolCallStart v =>
      [("tool_call_id", .str v.tool_call_id), ("tool_name", .str v.tool_name)]
        ++ optField "parent_message_id" (v.parent_message_id.map .str)
  | .ToolCallChunk v =>
      [("tool_call_id", .str v.tool_call_id), ("delta", .str v.delta)]
  | .ToolCallEnd v =>
      [("tool_call_id", .str v.tool_call_id)]
        ++ optField "tool_call" (v.tool_call.map serializeToolCall)
  | .ToolCallResult v => [("tool_result", serializeToolResult v.tool_result)]
  | .StateSnapshot v => [("state", .obj v.state)]
  | .StateDelta v => [("delta", v.delta)]
  | .Error v =>
      [("error", .str v.error)]
        ++ optField "code" (v.code.map .str)
        ++ optField "details" v.details

/-- The members of a serialized `BaseEvent` object: the `type` discriminator,
the optional envelope fields, then the `#[serde(flatten)]`ed payload
fields. -/
def baseEventFields (e : BaseEvent) : List (String × Json) :=
  ("type", .str (eventTypeToString e.event_type))
    :: (optField "timestamp" (e.timestamp.map .str)
        ++ optField "raw_event" e.raw_event
        ++ eventDataFields e.data)

/-- Serialization of `BaseEvent`. -/
def serializeBaseEvent (e : BaseEvent) : Json :=
  .obj (baseEventFields e)

/-- The keys of a serialized `BaseEvent`, in wire order. -/
def serializedKeys (e : BaseEvent) : List String :=
  (baseEventFields e).map Prod.fst

/-- The keys contributed by a payload variant, in wire order. -/
def eventDataKeys (d : EventData) : List String :=
  (eventDataFields d).map Prod.fst

/-! ## Deserialization (serde `Deserialize` derives)

Derived struct deserializers look fields up by key and ignore unknown keys;
a present field whose value has the wrong shape fails the whole struct.
An `Option` field is `none` when its key is absent or its value is JSON
`null`, and fails if the value is present but malformed. -/

/-- Field lookup in a JSON object (first occurrence). -/
def jlookup (k : String) : List (String × Json) → Option Json
  | [] => none
  | (k2, v) :: rest => if k2 = k then some v else jlookup k rest

/-- A JSON value as a string, as required by a `String` (or stringly
serialized) struct field. -/
def asStr : Json → Option String
  | .str s => some s
  | _ => none

/-- Decode an optional struct field: absent or `null` is `none`; a present
value must decode with `f`, otherwise the whole struct fails. -/
def decodeOptWith (k : String) (fs : List (String × Json)) (f : Json → Option α) :
    Option (Option α) :=
  match jlookup k fs with
  | none => some none
  | some .null => some none
  | some j => (f j).map some

/-- Decode a required string field. -/
def decodeStrField (k : String) (fs : List (String × Json)) : Option String :=
  jlookup k fs >>= asStr

/-- Decode a `Role` value (a lowercase string of the closed enumeration). -/
def decodeRole (j : Json) : Option Role :=
  asStr j >>= roleFromString

/-- Decode a `ToolCall`. -/
def decodeToolCall : Json → Option ToolCall
  | .obj fs => do
    let id ← decodeStrField "id" fs
    let name ← decodeStrField "name" fs
    let arguments ← decodeOptWith "arguments" fs some
    pure ⟨id, name, arguments⟩
  | _ => none

/-- Decode a `ToolResult` (`result` is a required arbitrary JSON value). -/
def decodeToolResult : Json → Option ToolResult
  | .obj fs => do
    let tid ← decodeStrField "tool_call_id" fs
    let result ← jlookup "result" fs
    let error ← decodeOptWith "error" fs asStr
    pure ⟨tid, result, error⟩
  | _ => none

/-- Decode a `FunctionCall`. -/
def decodeFunctionCall : Json → Option FunctionCall
  | .obj fs => do
    let name ← decodeStrField "name" fs
    let arguments ← decodeOptWith "arguments" fs asStr
    pure ⟨name, arguments⟩
  | _ => none

/-- Decode a JSON value as an object's field list, as required by a
`HashMap<String, Value>` field. -/
def asObjFields : Json → Option (List (String × Json))
  | .obj fs => some fs
  | _ => none

/-- Decode a `Message`. -/
def decodeMessage : Json → Option Message
  | .obj fs => do
    let id ← decodeStrField "id" fs
    let role ← jlookup "role" fs >>= decodeRole
    let content ← decodeStrField "content" fs
    let name ← decodeOptWith "name" fs asStr
    let tool_call_id ← decodeOptWith "tool_call_id" fs asStr
    let tool_calls ← decodeOptWith "tool_calls" fs (fun j =>
      match j with
      | .arr elems => elems.mapM decodeToolCall
      | _ => none)
    let function_call ← decodeOptWith "function_call" fs decodeFunctionCall
    let metadata ← decodeOptWith "metadata" fs asObjFields
    let created_at ← decodeOptWith "created_at" fs asStr
    pure ⟨id, role, content, name, tool_call_id, tool_calls, function_call,
          metadata, created_at⟩
  | _ => none

/-- Trial deserializer for the `RunStarted` untagged variant. -/
def tryRunStarted (fs : List (String × Json)) : Option RunStartedEvent := do
  let t ← decodeStrField "thread_id" fs
  let r ← decodeStrField "run_id" fs
  pure ⟨t, r⟩

/-- Trial deserializer for the `RunFinished` untagged variant. -/
def tryRunFinished (fs : List (String × Json)) : Option RunFinishedEvent := do
  let t ← decodeStrField "thread_id" fs
  let r ← decodeStrField "run_id" fs
  pure ⟨t, r⟩

/-- Trial deserializer for the `RunAborted` untagged variant. -/
def tryRunAborted (fs : List (String × Json)) : Option RunAbortedEvent := do
  let t ← decodeStrField "thread_id" fs
  let r ← decodeStrField "run_id" fs
  let reason ← decodeOptWith "reason" fs asStr
  pure ⟨t, r, reason⟩

/-- Trial deserializer for the `TextMessageStart` untagged variant; a present
but invalid `role` fails the variant. -/
def tryTextMessageStart (fs : List (String × Json)) : Option TextMessageStartEvent := do
  let m ← decodeStrField "message_id" fs
  let role ← decodeOptWith "role" fs decodeRole
  pure ⟨m, role⟩

/-- Trial deserializer for the `TextMessageContent` untagged variant. -/
def tryTextMessageContent (fs : List (String × Json)) : Option TextMessageContentEvent := do
  let m ← decodeStrField "message_id" fs
  let d ← decodeStrField "delta" fs
  pure ⟨m, d⟩

/-- Trial deserializer for the `TextMessageChunk` untagged variant. -/
def tryTextMessageChunk (fs : List (String × Json)) : Option TextMessageChunkEvent := do
  let m ← decodeStrField "message_id" fs
  let d ← decodeStrField "delta" fs
  pure ⟨m, d⟩

/-- Trial deserializer for the `TextMessageEnd` untagged variant. -/
def tryTextMessageEnd (fs : List (String × Json)) : Option TextMessageEndEvent := do
  let m ← decodeStrField "message_id" fs
  pure ⟨m⟩

/-- Trial deserializer for the `MessagesSnapshot` untagged variant. -/
def tryMessagesSnapshot (fs : List (String × Json)) : Option MessagesSnapshotEvent := do
  let j ← jlookup "messages" fs
  match j with
  | .arr elems => do
    let messages ← elems.mapM decodeMessage
    pure ⟨messages⟩
  | _ => none

/-- Trial deserializer for the `ToolCallStart` untagged variant. -/
def tryToolCallStart (fs : List (String × Json)) : Option ToolCallStartEvent := do
  let id ← decodeStrField "tool_call_id" fs
  let name ← decodeStrField "tool_name" fs
  let parent ← decodeOptWith "parent_message_id" fs asStr
  pure ⟨id, name, parent⟩

/-- Trial deserializer for the `ToolCallChunk` untagged variant. -/
def tryToolCallChunk (fs : List (String × Json)) : Option ToolCallChunkEvent := do
  let id ← decodeStrField "tool_call_id" fs
  let d ← decodeStrField "delta" fs
  pure ⟨id, d⟩

/-- Trial deserializer for the `ToolCallEnd` untagged variant. -/
def tryToolCallEnd (fs : List (String × Json)) : Option ToolCallEndEvent := do
  let id ← decodeStrField "tool_call_id" fs
  let tc ← decodeOptWith "tool_call" fs decodeToolCall
  pure ⟨id, tc⟩

/-- Trial deserializer for the `ToolCallResult` untagged variant. -/
def tryToolCallResult (fs : List (String × Json)) : Option ToolCallResultEvent := do
  let tr ← jlookup "tool_result" fs >>= decodeToolResult
  pure ⟨tr⟩

/-- Trial deserializer for the `StateSnapshot` untagged variant. -/
def tryStateSnapshot (fs : List (String × Json)) : Option StateSnapshotEvent := do
  let st ← jlookup "state" fs >>= asObjFields
  pure ⟨st⟩

/-- Trial deserializer for the `StateDelta` untagged variant (`delta` is any
JSON value). -/
def tryStateDelta (fs : List (String × Json)) : Option StateDeltaEvent := do
  let d ← jlookup "delta" fs
  pure ⟨d⟩

/-- Trial deserializer for the `Error` untagged variant. -/
def tryError (fs : List (String × Json)) : Option ErrorEvent := do
  let err ← decodeStrField "error" fs
  let code ← decodeOptWith "code" fs asStr
  let details ← decodeOptWith "details" fs some
  pure ⟨err, code, details⟩

/-- Deserialization of the `#[serde(untagged)]` enum `EventData`: the
variants are tried in declaration order and the first success wins. -/
def decodeEventData (fs : List (String × Json)) : Option EventData :=
  ((tryRunStarted fs).map .RunStarted)
  <|> ((tryRunFinished fs).map .RunFinished)
  <|> ((tryRunAborted fs).map .RunAborted)
  <|> ((tryTextMessageStart fs).map .TextMessageStart)
  <|> ((tryTextMessageContent fs).map .TextMessageContent)
  <|> ((tryTextMessageChunk fs).map .TextMessageChunk)
  <|> ((tryTextMessageEnd fs).map .TextMessageEnd)
  <|> ((tryMessagesSnapshot fs).map .MessagesSnapshot)
  <|> ((tryToolCallStart fs).map .ToolCallStart)
  <|> ((tryToolCallChunk fs).map .ToolCallChunk)
  <|> ((tryToolCallEnd fs).map .ToolCallEnd)
  <|> ((tryToolCallResult fs).map .ToolCallResult)
  <|> ((tryStateSnapshot fs).map .StateSnapshot)
  <|> ((tryStateDelta fs).map .StateDelta)
  <|> ((tryError fs).map .Error)

/-- The envelope's own field names (`type` and the two declared `Option`
fields), consumed before the flattened `data` deserializer runs. -/
def isEnvelopeKey (k : String) : Bool :=
  k == "type" || k == "timestamp" || k == "raw_event"

/-- The fields passed on to the flattened `data` deserializer: everything the
envelope did not consume. -/
def stripEnvelope (fs : List (String × Json)) : List (String × Json) :=
  fs.filter (fun kv => !(isEnvelopeKey kv.1))

/-- Deserialization of `BaseEvent`: the `type` tag must name a known
`EventType`; `timestamp`/`raw_event` are optional; the remaining fields are
flattened into `EventData`.  Any failure is a serde error, modelled as
`none`. -/
def deserializeBaseEvent : Json → Option BaseEvent
  | .obj fs =>
    match jlookup "type" fs with
    | some tj =>
      match asStr tj with
      | some s =>
        match eventTypeFromString s with
        | some et =>
          match decodeOptWith "timestamp" fs asStr with
          | some ts =>
            match decodeOptWith "raw_event" fs some with
            | some raw =>
              match decodeEventData (stripEnvelope fs) with
              | some d => some ⟨et, ts, raw, d⟩
              | none => none
            | none => none
          | none => none
        | none => none
      | none => none
    | none => none
  | _ => none

/-! ## Compact JSON text (`serde_json::to_string`) -/

/-- One hexadecimal digit (lowercase), for `\u` escapes. -/
def hexDigit (n : Nat) : Char :=
  if n < 10 then Char.ofNat (48 + n) else Char.ofNat (87 + n)

/-- Four-digit hexadecimal rendering of a code point below `0x10000`. -/
def hex4 (n : Nat) : List Char :=
  [hexDigit (n / 4096 % 16), hexDigit (n / 256 % 16),
   hexDigit (n / 16 % 16), hexDigit (n % 16)]

/-- `serde_json`'s escaping of one character inside a JSON string. -/
def escapeChar (c : Char) : List Char :=
  if c = '"' then ['\\', '"']
  else if c = '\\' then ['\\', '\\']
  else if c = '\n' then ['\\', 'n']
  else if c = '\r' then ['\\', 'r']
  else if c = '\t' then ['\\', 't']
  else if c = '\x08' then ['\\', 'b']
  else if c = '\x0c' then ['\\', 'f']
  else if c.toNat < 0x20 then '\\' :: 'u' :: hex4 c.toNat
  else [c]

/-- A JSON string literal with quotes and escapes. -/
def escapeString (s : String) : List Char :=
  '"' :: (s.data.flatMap escapeChar) ++ ['"']

mutual

/-- Compact rendering of a JSON value, as `serde_json::to_string` produces
it: no insignificant whitespace, object fields in list order. -/
def renderJsonChars : Json → List Char
  | .null => ['n', 'u', 'l', 'l']
  | .bool b => if b then ['t', 'r', 'u', 'e'] else ['f', 'a', 'l', 's', 'e']
  | .num n => (toString n).data
  | .str s => escapeString s
  | .arr elems => '[' :: renderArr elems ++ [']']
  | .obj fs => '\x7b' :: renderObj fs ++ ['\x7d']

/-- Comma-separated rendering of array elements. -/
def renderArr : List Json → List Char
  | [] => []
  | [x] => renderJsonChars x
  | x :: rest => renderJsonChars x ++ ',' :: renderArr rest

/-- Comma-separated rendering of object members. -/
def renderObj : List (String × Json) → List Char
  | [] => []
  | [(k, v)] => escapeString k ++ ':' :: renderJsonChars v
  | (k, v) :: rest => escapeString k ++ ':' :: renderJsonChars v ++ ',' :: renderObj rest

end

/-- Compact JSON text of a value (`serde_json::to_string`). -/
def renderJson (j : Json) : String :=
  String.mk (renderJsonChars j)

/-! ## JSON text parsing (`serde_json::from_str`)

A fuel-indexed recursive-descent parser over the character list.  It skips
surrounding whitespace and rejects trailing non-whitespace, raw control
characters inside strings, and leading zeros, as `serde_json` does.
Fractional and exponent number syntax is not modelled (no claim feeds the
decoder a float); such input is rejected rather than misread. -/

/-- JSON whitespace. -/
def isWsChar (c : Char) : Bool :=
  c = ' ' ∨ c = '\t' ∨ c = '\n' ∨ c = '\r'

/-- Drop leading JSON whitespace. -/
def skipWs : List Char → List Char
  | [] => []
  | c :: cs => if isWsChar c then skipWs cs else c :: cs

/-- Value of a hexadecimal digit. -/
def hexVal (c : Char) : Option Nat :=
  if '0' ≤ c ∧ c ≤ '9' then some (c.toNat - 48)
  else if 'a' ≤ c ∧ c ≤ 'f' then some (c.toNat - 87)
  else if 'A' ≤ c ∧ c ≤ 'F' then some (c.toNat - 55)
  else none

/-- Decimal digit test. -/
def isDigitChar (c : Char) : Bool :=
  '0' ≤ c ∧ c ≤ '9'

/-- Parse the body of a JSON string after the opening quote, handling
escapes; rejects raw control characters. -/
def parseStringBody : Nat → List Char → List Char → Option (String × List Char)
  | 0, _, _ => none
  | _ + 1, _, [] => none
  | fuel + 1, acc, c :: cs =>
    if c = '"' then some (String.mk acc.reverse, cs)
    else if c = '\\' then
      match cs with
      | [] => none
      | e :: cs2 =>
        if e = '"' then parseStringBody fuel ('"' :: acc) cs2
        else if e = '\\' then parseStringBody fuel ('\\' :: acc) cs2
        else if e = '/' then parseStringBody fuel ('/' :: acc) cs2
        else if e = 'n' then parseStringBody fuel ('\n' :: acc) cs2
        else if e = 't' then parseStringBody fuel ('\t' :: acc) cs2
        else if e = 'r' then parseStringBody fuel ('\r' :: acc) cs2
        else if e = 'b' then parseStringBody fuel ('\x08' :: acc) cs2
        else if e = 'f' then parseStringBody fuel ('\x0c' :: acc) cs2
        else if e = 'u' then
          match cs2 with
          | h1 :: h2 :: h3 :: h4 :: cs3 =>
            match hexVal h1, hexVal h2, hexVal h3, hexVal h4 with
            | some a, some b, some c2, some d =>
              parseStringBody fuel (Char.ofNat (((a * 16 + b) * 16 + c2) * 16 + d) :: acc) cs3
            | _, _, _, _ => none
          | _ => none
        else none
    else if c.toNat < 0x20 then none
    else parseStringBody fuel (c :: acc) cs

/-- Split a leading run of decimal digits. -/
def takeDigits : List Char → (List Char × List Char)
  | [] => ([], [])
  | c :: cs =>
    if isDigitChar c then
      let (ds, rest) := takeDigits cs
      (c :: ds, rest)
    else ([], c :: cs)

/-- Numeric value of a digit run. -/
def digitsToNat : List Char → Nat → Nat
  | [], acc => acc
  | c :: cs, acc => digitsToNat cs (acc * 10 + (c.toNat - 48))

/-- Parse a JSON integer (optional minus, no leading zeros, no fraction or
exponent — see the section comment). -/
def parseIntNumber (cs : List Char) : Option (Int × List Char) :=
  let (neg, cs1) :=
    match cs with
    | '-' :: rest => (true, rest)
    | _ => (false, cs)
  match takeDigits cs1 with
  | ([], _) => none
  | (ds, rest) =>
    if ds.length > 1 ∧ ds.headI = '0' then none
    else
      match rest with
      | '.' :: _ => none
      | 'e' :: _ => none
      | 'E' :: _ => none
      | _ =>
        let n : Int := Int.ofNat (digitsToNat ds 0)
        some (if neg then -n else n, rest)

/-- Match a literal keyword such as `null` or `true`. -/
def matchChars : List Char → List Char → Option (List Char)
  | [], cs => some cs
  | _ :: _, [] => none
  | k :: ks, c :: cs => if c = k then matchChars ks cs else none

mutual

/-- Parse one JSON value (leading whitespace allowed). -/
def parseValue : Nat → List Char → Option (Json × List Char)
  | 0, _ => none
  | fuel + 1, cs =>
    match skipWs cs with
    | [] => none
    | c :: rest =>
      if c = '"' then
        match parseStringBody (fuel + 1) [] rest with
        | some (s, rest2) => some (.str s, rest2)
        | none => none
      else if c = '\x7b' then parseMembersStart fuel rest
      else if c = '[' then parseElemsStart fuel rest
      else if c = 'n' then
        (matchChars ['u', 'l', 'l'] rest).map (fun r => (.null, r))
      else if c = 't' then
        (matchChars ['r', 'u', 'e'] rest).map (fun r => (.bool true, r))
      else if c = 'f' then
        (matchChars ['a', 'l', 's', 'e'] rest).map (fun r => (.bool false, r))
      else if c = '-' ∨ isDigitChar c then
        (parseIntNumber (c :: rest)).map (fun (n, r) => (.num n, r))
      else none

/-- Parse an object body right after `\x7b`. -/
def parseMembersStart : Nat → List Char → Option (Json × List Char)
  | 0, _ => none
  | fuel + 1, cs =>
    match skipWs cs with
    | '\x7d' :: rest => some (.obj [], rest)
    | other => parseMembers fuel [] other

/-- Parse one or more `"key": value` members, accumulating in order. -/
def parseMembers : Nat → List (String × Json) → List Char → Option (Json × List Char)
  | 0, _, _ => none
  | fuel + 1, acc, cs =>
    match skipWs cs with
    | '"' :: rest =>
      match parseStringBody (fuel + 1) [] rest with
      | some (k, rest2) =>
        match skipWs rest2 with
        | ':' :: rest3 =>
          match parseValue fuel rest3 with
          | some (v, rest4) =>
            match skipWs rest4 with
            | ',' :: rest5 => parseMembers fuel ((k, v) :: acc) rest5
            | '\x7d' :: rest5 => some (.obj ((k, v) :: acc).reverse, rest5)
            | _ => none
          | none => none
        | _ => none
      | none => none
    | _ => none

/-- Parse an array body right after `[`. -/
def parseElemsStart : Nat → List Char → Option (Json × List Char)
  | 0, _ => none
  | fuel + 1, cs =>
    match skipWs cs with
    | ']' :: rest => some (.arr [], rest)
    | other => parseElems fuel [] other

/-- Parse one or more array elements, accumulating in order. -/
def parseElems : Nat → List Json → List Char → Option (Json × List Char)
  | 0, _, _ => none
  | fuel + 1, acc, cs =>
    match parseValue fuel cs with
    | some (v, rest) =>
      match skipWs rest with
      | ',' :: rest2 => parseElems fuel (v :: acc) rest2
      | ']' :: rest2 => some (.arr (v :: acc).reverse, rest2)
      | _ => none
    | none => none

end

/-- `serde_json::from_str` on a document text: parse one value, skipping
leading whitespace and allowing only trailing whitespace. -/
def parseJson (s : String) : Option Json :=
  match parseValue (s.length * 4 + 64) s.data with
  | some (j, rest) =>
    match skipWs rest with
    | [] => some j
    | _ => none
  | none => none

/-! ## SSE encoder (`encoder/sse_encoder.rs`) -/

namespace SseEncoder

/-- `SseEncoder::encode_event_string`: the compact JSON document wrapped as
one SSE data frame. -/
def encode_event_string (e : BaseEvent) : String :=
  "data: " ++ renderJson (serializeBaseEvent e) ++ "\n\n"

/-- `SseEncoder::encode_events_string`: the frames of the events pushed onto
an initially empty string, in input order. -/
def encode_events_string (events : List BaseEvent) : String :=
  events.foldl (fun result e => result ++ encode_event_string e) ""

/-- `SseEncoder::encode_comment` (string form): `: ` + text + `\n`. -/
def encode_comment (comment : String) : String :=
  ": " ++ comment ++ "\n"

/-- `SseEncoder::encode_ping` (string form): the fixed frame `: ping\n\n`. -/
def encode_ping : String :=
  ": ping\n\n"

end SseEncoder

/-! ## Stream decoding (`stream/event_stream.rs`)

`EventStream::next_event` reads one chunk, decodes it as text and treats the
whole chunk text as one potential `data: ` frame; it keeps no buffer of
pending bytes between chunks.  `EventStream::create_transform_stream` splits
each chunk's text into lines and parses each `data: ` line, silently
dropping lines whose JSON fails; it also keeps no cross-chunk buffer.
Chunks are modelled as the decoded text (the concrete inputs in the theorems
below are ASCII, where `TextDecoder` is the identity and byte offsets agree
with character offsets). -/

/-- The error enum `AgUiError` from `error.rs` (the serde error payload of
`JsonError` is not modelled). -/
inductive AgUiError where
  | ConnectionError : String → AgUiError
  | StreamError : String → AgUiError
  | JsonError : AgUiError
  | AgentError : String → AgUiError
  | IoError : String → AgUiError
  | EncodingError : String → AgUiError
  | WasmBindgenError : String → AgUiError

/-- `str::starts_with` for string literals. -/
def strStartsWith (s p : String) : Bool :=
  p.data.isPrefixOf s.data

/-- Rust `&text[6..]` after the 6-byte ASCII `data: ` prefix (character drop
agrees with byte drop there). -/
def strDropChars (s : String) (n : Nat) : String :=
  String.mk (s.data.drop n)

/-- The first `n` characters, modelling a byte-offset chunk split of ASCII
text. -/
def strTakeChars (s : String) (n : Nat) : String :=
  String.mk (s.data.take n)

/-- `EventStream::next_event` applied to one arriving chunk: the whole chunk
text either starts with `data: ` — then the remainder must parse and
validate as a `BaseEvent`, else the call fails with `JsonError` — or the
chunk yields no event. -/
def next_event (text : String) : Except AgUiError (Option BaseEvent) :=
  if strStartsWith text "data: " then
    match parseJson (strDropChars text 6) with
    | none => .error .JsonError
    | some j =>
      match deserializeBaseEvent j with
      | none => .error .JsonError
      | some e => .ok (some e)
  else
    .ok none

/-- The events a consumer collects by calling `next_event` on each chunk of
a list in order (errors and skipped chunks contribute nothing). -/
def eventsOfChunks (chunks : List String) : List BaseEvent :=
  chunks.filterMap (fun c =>
    match next_event c with
    | .ok (some e) => some e
    | _ => none)

/-- Split a non-empty run on newline separators (`str::lines` core). -/
def splitLinesChars : List Char → List (List Char)
  | [] => [[]]
  | c :: cs =>
    if c = '\n' then [] :: splitLinesChars cs
    else
      match splitLinesChars cs with
      | [] => [[c]]
      | l :: ls => (c :: l) :: ls

/-- Rust `str::lines`: split on `\n`, drop one trailing empty segment
produced by a final newline, and strip a trailing `\r` from each line. -/
def rustLines (s : String) : List String :=
  let parts := splitLinesChars s.data
  let parts :=
    match parts.getLast? with
    | some [] => parts.dropLast
    | _ => parts
  parts.map (fun l =>
    match l.getLast? with
    | some '\r' => String.mk l.dropLast
    | _ => String.mk l)

/-- The transform-stream handling of one line: a `data: ` line whose payload
parses and validates is enqueued; every other line (including a data line
with bad JSON) produces nothing. -/
def transformLine (line : String) : Option BaseEvent :=
  if strStartsWith line "data: " then
    (parseJson (strDropChars line 6)).bind deserializeBaseEvent
  else
    none

/-- `EventStream::create_transform_stream` applied to one chunk: the events
enqueued for that chunk's text, in line order. -/
def transformChunk (text : String) : List BaseEvent :=
  (rustLines text).filterMap transformLine

/-! ## Helper constructors (`impl BaseEvent` in `core/events.rs`)

Each helper stamps `Utc::now()` into `timestamp`; the clock reading is
modelled as the extra argument `now` (its RFC3339 wire string). -/

namespace BaseEvent

/-- `BaseEvent::run_started`. -/
def run_started (thread_id run_id : String) (now : String) : BaseEvent :=
  ⟨.RunStarted, some now, none, .RunStarted ⟨thread_id, run_id⟩⟩

/-- `BaseEvent::run_finished`. -/
def run_finished (thread_id run_id : String) (now : String) : BaseEvent :=
  ⟨.RunFinished, some now, none, .RunFinished ⟨thread_id, run_id⟩⟩

/-- `BaseEvent::text_message_content`. -/
def text_message_content (message_id delta : String) (now : String) : BaseEvent :=
  ⟨.TextMessageContent, some now, none, .TextMessageContent ⟨message_id, delta⟩⟩

/-- `BaseEvent::text_message_start`. -/
def text_message_start (message_id : String) (role : Option Role) (now : String) : BaseEvent :=
  ⟨.TextMessageStart, some now, none, .TextMessageStart ⟨message_id, role⟩⟩

/-- `BaseEvent::text_message_end`. -/
def text_message_end (message_id : String) (now : String) : BaseEvent :=
  ⟨.TextMessageEnd, some now, none, .TextMessageEnd ⟨message_id⟩⟩

/-- `BaseEvent::error`. -/
def error (err : String) (code : Option String) (now : String) : BaseEvent :=
  ⟨.Error, some now, none, .Error ⟨err, code, none⟩⟩

end BaseEvent

/-! ## Concrete values used by individual claims -/

/-- The `RunStarted` event of the spec's concrete scenario 2 (no timestamp,
no raw passthrough). -/
def c1Event : BaseEvent :=
  ⟨.RunStarted, none, none, .RunStarted ⟨"t", "r"⟩⟩

/-- Its encoded frame,
`data: \x7b"type":"RUN_STARTED","thread_id":"t","run_id":"r"\x7d\n\n`. -/
def c1Frame : String :=
  SseEncoder.encode_event_string c1Event

/-- The first 10 bytes of the frame (a split inside the JSON document). -/
def c1Chunk1 : String := strTakeChars c1Frame 10

/-- The remaining bytes of the frame. -/
def c1Chunk2 : String := strDropChars c1Frame 10

/-- The `TextMessageContent` event of the spec's concrete scenario 1. -/
def c2Event : BaseEvent :=
  ⟨.TextMessageContent, none, none, .TextMessageContent ⟨"m1", "Hi"⟩⟩

/-- What the decoder actually returns for `c2Event`'s serialization: the
`type` tag survives but the payload comes back as the earlier-declared
`TextMessageStart` variant (the untagged first shape match, `delta`
ignored as an unknown field). -/
def c2Decoded : BaseEvent :=
  ⟨.TextMessageContent, none, none, .TextMessageStart ⟨"m1", none⟩⟩

/-- A document whose `type` tag is `TEXT_MESSAGE_END` but whose payload
fields have the `RunStarted` shape. -/
def c3Doc : Json :=
  .obj [("type", .str "TEXT_MESSAGE_END"),
        ("thread_id", .str "t"), ("run_id", .str "r")]

/-- What the decoder returns for `c3Doc`: tag and payload variant
disagree. -/
def c3Decoded : BaseEvent :=
  ⟨.TextMessageEnd, none, none, .RunStarted ⟨"t", "r"⟩⟩

/-- A well-formed `STEP_STARTED` document per the spec's variant catalog. -/
def c4Doc : Json :=
  .obj [("type", .str "STEP_STARTED"), ("thread_id", .str "t"),
        ("run_id", .str "r"), ("step_id", .str "s")]

/-- A `TEXT_MESSAGE_START` document whose `role` is the invalid string
`robot`. -/
def c5Doc : Json :=
  .obj [("type", .str "TEXT_MESSAGE_START"),
        ("message_id", .str "m"), ("role", .str "robot")]

/-- What the decoder returns for `c5Doc`: it is accepted, as the
`TextMessageEnd` payload shape (the invalid `role` is ignored as an unknown
field of that variant). -/
def c5Decoded : BaseEvent :=
  ⟨.TextMessageStart, none, none, .TextMessageEnd ⟨"m"⟩⟩

/-- An SSE frame whose document has an unknown `type` tag. -/
def c6Frame : String :=
  "data: \x7b\"type\":\"NOT_A_KIND\",\"thread_id\":\"t\"\x7d\n\n"

/-- The first event of the batch in claim C8. -/
def c8e1 : BaseEvent :=
  ⟨.RunStarted, none, none, .RunStarted ⟨"t1", "r1"⟩⟩

/-- The second event of the batch in claim C8. -/
def c8e2 : BaseEvent :=
  ⟨.TextMessageContent, none, none, .TextMessageContent ⟨"m1", "Hi"⟩⟩

/-- The third event of the batch in claim C8. -/
def c8e3 : BaseEvent :=
  ⟨.Error, none, none, .Error ⟨"boom", some "E1", none⟩⟩

/-- What decoding gives back for `c8e2`: the untagged first shape match
turns its payload into the `TextMessageStart` variant. -/
def c8d2 : BaseEvent :=
  ⟨.TextMessageContent, none, none, .TextMessageStart ⟨"m1", none⟩⟩

/-- The `TextMessageContent` event of the spec's concrete scenario 1, with
no timestamp set (claim C7). -/
def c7Event : BaseEvent :=
  ⟨.TextMessageContent, none, none, .TextMessageContent ⟨"m1", "Hi"⟩⟩

/-- The data event of the spec's concrete scenario 3. -/
def c9Event : BaseEvent :=
  ⟨.RunStarted, none, none, .RunStarted ⟨"t", "r"⟩⟩

/-- Its encoded frame. -/
def c9Frame : String :=
  SseEncoder.encode_event_string c9Event

/-! ## Shared lemmas -/

/-- The two wire maps of `EventType` are mutually inverse on every variant. -/
theorem eventTypeFromString_toString (t : EventType) :
    eventTypeFromString (eventTypeToString t) = some t := by
  cases t <;> rfl

/-- Looking up the key just written at the head of an object. -/
theorem jlookup_cons_self (k : String) (v : Json) (fs : List (String × Json)) :
    jlookup k ((k, v) :: fs) = some v := by
  simp [jlookup]

/-- Lookup skips a head member with a different key. -/
theorem jlookup_cons_ne (k k2 : String) (v : Json) (fs : List (String × Json))
    (h : ¬ k2 = k) : jlookup k ((k2, v) :: fs) = jlookup k fs := by
  simp [jlookup, h]

/-- Optional-field decoding skips a head member with a different key. -/
theorem decodeOptWith_cons_ne {α : Type} (k k2 : String) (v : Json)
    (fs : List (String × Json)) (f : Json → Option α) (h : ¬ k2 = k) :
    decodeOptWith k ((k2, v) :: fs) f = decodeOptWith k fs f := by
  simp [decodeOptWith, jlookup_cons_ne _ _ _ _ h]

/-- The flatten step drops a leading `type` member. -/
theorem stripEnvelope_cons_type (v : Json) (fs : List (String × Json)) :
    stripEnvelope (("type", v) :: fs) = stripEnvelope fs := by
  simp [stripEnvelope, isEnvelopeKey]

/-- Payload fields never reuse an envelope key: whatever the variant and its
optional fields, the flattened payload contributes no `type`, `timestamp` or
`raw_event` member. -/
theorem envelope_keys_not_in_eventDataKeys (d : EventData) :
    ¬ "timestamp" ∈ eventDataKeys d
    ∧ ¬ "raw_event" ∈ eventDataKeys d
    ∧ ¬ "type" ∈ eventDataKeys d := by
  cases d with
  | RunStarted v => simp [eventDataKeys, eventDataFields]
  | RunFinished v => simp [eventDataKeys, eventDataFields]
  | RunAborted v =>
    obtain ⟨t, r, reason⟩ := v
    cases reason <;> simp [eventDataKeys, eventDataFields, optField]
  | TextMessageStart v =>
    obtain ⟨m, role⟩ := v
    cases role <;> simp [eventDataKeys, eventDataFields, optField]
  | TextMessageContent v => simp [eventDataKeys, eventDataFields]
  | TextMessageChunk v => simp [eventDataKeys, eventDataFields]
  | TextMessageEnd v => simp [eventDataKeys, eventDataFields]
  | MessagesSnapshot v => simp [eventDataKeys, eventDataFields]
  | ToolCallStart v =>
    obtain ⟨id, name, parent⟩ := v
    cases parent <;> simp [eventDataKeys, eventDataFields, optField]
  | ToolCallChunk v => simp [eventDataKeys, eventDataFields]
  | ToolCallEnd v =>
    obtain ⟨id, tc⟩ := v
    cases tc <;> simp [eventDataKeys, eventDataFields, optField]
  | ToolCallResult v => simp [eventDataKeys, eventDataFields]
  | StateSnapshot v => simp [eventDataKeys, eventDataFields]
  | StateDelta v => simp [eventDataKeys, eventDataFields]
  | Error v =>
    obtain ⟨err, code, details⟩ := v
    cases code <;> cases details <;>
      simp [eventDataKeys, eventDataFields, optField]

/-! ## Claim theorems -/

/-- Claim C1 (code bug).  The stream decoder keeps no buffer of pending
bytes, so chunk-split invariance fails: the encoded `RunStarted` frame fed
whole yields the one event, but the same frame split at byte offset 10 into
two chunks yields a `JsonError` for the first chunk and nothing for the
second — zero events in total — on both the `next_event` path and the
transform-stream path; a split at offset 3, inside the `data: ` prefix,
likewise yields zero events. -/
theorem C1_no_cross_chunk_reassembly :
    next_event c1Frame = .ok (some c1Event)
    ∧ next_event c1Chunk1 = .error .JsonError
    ∧ next_event c1Chunk2 = .ok none
    ∧ eventsOfChunks [c1Frame] = [c1Event]
    ∧ eventsOfChunks [c1Chunk1, c1Chunk2] = []
    ∧ eventsOfChunks [strTakeChars c1Frame 3, strDropChars c1Frame 3] = []
    ∧ transformChunk c1Frame = [c1Event]
    ∧ transformChunk c1Chunk1 ++ transformChunk c1Chunk2 = [] :=
  ⟨rfl, rfl, rfl, rfl, rfl, rfl, rfl, rfl⟩

/-- Claim C2 (code bug).  Decoding the JSON payload of
`encode(TextMessageContent\x7bmessage_id:"m1", delta:"Hi"\x7d)` succeeds but
returns the `TextMessageStart` payload variant (the first declared untagged
variant whose shape matches, `delta` being ignored as an unknown field), not
the original `TextMessageContent` variant. -/
theorem C2_roundtrip_returns_wrong_variant :
    deserializeBaseEvent (serializeBaseEvent c2Event) = some c2Decoded
    ∧ ¬ EventData.ctorIdx c2Decoded.data = EventData.ctorIdx c2Event.data
    ∧ eventDataMatchesType c2Decoded.event_type c2Decoded.data = false :=
  ⟨rfl, by decide, rfl⟩

/-- Claim C4 (code bug).  `EventType` in `core/events.rs` has no variant for
eleven kinds of the spec's catalog — `RUN_ERROR`, `STEP_STARTED`,
`STEP_FINISHED`, the five `THINKING` kinds, `TOOL_CALL_ARGS`, `RAW`,
`CUSTOM` — so a well-formed `STEP_STARTED` document fails to decode. -/
theorem C4_catalog_kinds_missing :
    eventTypeFromString "RUN_ERROR" = none
    ∧ eventTypeFromString "STEP_STARTED" = none
    ∧ eventTypeFromString "STEP_FINISHED" = none
    ∧ eventTypeFromString "THINKING_START" = none
    ∧ eventTypeFromString "THINKING_END" = none
    ∧ eventTypeFromString "THINKING_TEXT_MESSAGE_START" = none
    ∧ eventTypeFromString "THINKING_TEXT_MESSAGE_CONTENT" = none
    ∧ eventTypeFromString "THINKING_TEXT_MESSAGE_END" = none
    ∧ eventTypeFromString "TOOL_CALL_ARGS" = none
    ∧ eventTypeFromString "RAW" = none
    ∧ eventTypeFromString "CUSTOM" = none
    ∧ deserializeBaseEvent c4Doc = none :=
  ⟨rfl, rfl, rfl, rfl, rfl, rfl, rfl, rfl, rfl, rfl, rfl, rfl⟩

/-- Claim C10 (confirmed).  Every helper constructor on `BaseEvent` builds a
payload variant agreeing with its `event_type` tag, leaves `raw_event`
unset, and stamps `timestamp` with the clock reading (`Utc::now()`, modelled
by the `now` argument): no constructor produces an absent timestamp. -/
theorem C10_helper_constructors_stamp_envelope :
    (∀ t r now, (BaseEvent.run_started t r now).event_type = .RunStarted
      ∧ (BaseEvent.run_started t r now).data = .RunStarted ⟨t, r⟩
      ∧ eventDataMatchesType (BaseEvent.run_started t r now).event_type
          (BaseEvent.run_started t r now).data = true
      ∧ (BaseEvent.run_started t r now).raw_event = none
      ∧ (BaseEvent.run_started t r now).timestamp = some now)
    ∧ (∀ t r now, (BaseEvent.run_finished t r now).event_type = .RunFinished
      ∧ (BaseEvent.run_finished t r now).data = .RunFinished ⟨t, r⟩
      ∧ eventDataMatchesType (BaseEvent.run_finished t r now).event_type
          (BaseEvent.run_finished t r now).data = true
      ∧ (BaseEvent.run_finished t r now).raw_event = none
      ∧ (BaseEvent.run_finished t r now).timestamp = some now)
    ∧ (∀ m d now, (BaseEvent.text_message_content m d now).event_type = .TextMessageContent
      ∧ (BaseEvent.text_message_content m d now).data = .TextMessageContent ⟨m, d⟩
      ∧ eventDataMatchesType (BaseEvent.text_message_content m d now).event_type
          (BaseEvent.text_message_content m d now).data = true
      ∧ (BaseEvent.text_message_content m d now).raw_event = none
      ∧ (BaseEvent.text_message_content m d now).timestamp = some now)
    ∧ (∀ m role now, (BaseEvent.text_message_start m role now).event_type = .TextMessageStart
      ∧ (BaseEvent.text_message_start m role now).data = .TextMessageStart ⟨m, role⟩
      ∧ eventDataMatchesType (BaseEvent.text_message_start m role now).event_type
          (BaseEvent.text_message_start m role now).data = true
      ∧ (BaseEvent.text_message_start m role now).raw_event = none
      ∧ (BaseEvent.text_message_start m role now).timestamp = some now)
    ∧ (∀ m now, (BaseEvent.text_message_end m now).event_type = .TextMessageEnd
      ∧ (BaseEvent.text_message_end m now).data = .TextMessageEnd ⟨m⟩
      ∧ eventDataMatchesType (BaseEvent.text_message_end m now).event_type
          (BaseEvent.text_message_end m now).data = true
      ∧ (BaseEvent.text_message_end m now).raw_event = none
      ∧ (BaseEvent.text_message_end m now).timestamp = some now)
    ∧ (∀ err code now, (BaseEvent.error err code now).event_type = .Error
      ∧ (BaseEvent.error err code now).data = .Error ⟨err, code, none⟩
      ∧ eventDataMatchesType (BaseEvent.error err code now).event_type
          (BaseEvent.error err code now).data = true
      ∧ (BaseEvent.error err code now).raw_event = none
      ∧ (BaseEvent.error err code now).timestamp = some now) :=
  ⟨fun _ _ _ => ⟨rfl, rfl, rfl, rfl, rfl⟩,
   fun _ _ _ => ⟨rfl, rfl, rfl, rfl, rfl⟩,
   fun _ _ _ => ⟨rfl, rfl, rfl, rfl, rfl⟩,
   fun _ _ _ => ⟨rfl, rfl, rfl, rfl, rfl⟩,
   fun _ _ => ⟨rfl, rfl, rfl, rfl, rfl⟩,
   fun _ _ _ => ⟨rfl, rfl, rfl, rfl, rfl⟩⟩

/-- Claim C3 (counterexample).  A document whose `type` tag is
`TEXT_MESSAGE_END` but whose fields have the `RunStarted` shape is not
rejected: it decodes to an event whose tag and payload variant disagree. -/
theorem C3_counterexample_mismatch_decodes :
    deserializeBaseEvent c3Doc = some c3Decoded
    ∧ eventDataMatchesType c3Decoded.event_type c3Decoded.data = false :=
  ⟨rfl, rfl⟩

/-- Claim C3 (amended).  The `type` tag does not constrain the payload: for
any two tags (with the same remaining fields) the decoder returns exactly
the same payload, chosen from the field shape alone, so tag/payload
agreement is not enforced at decode time. -/
theorem C3_amended_payload_ignores_tag (t1 t2 : EventType)
    (fs : List (String × Json)) :
    (deserializeBaseEvent (.obj (("type", .str (eventTypeToString t1)) :: fs))).map
        BaseEvent.data
    = (deserializeBaseEvent (.obj (("type", .str (eventTypeToString t2)) :: fs))).map
        BaseEvent.data := by
  have red : ∀ t : EventType,
      deserializeBaseEvent (.obj (("type", .str (eventTypeToString t)) :: fs))
      = (match decodeOptWith "timestamp" fs asStr with
         | some ts =>
           match decodeOptWith "raw_event" fs some with
           | some raw =>
             match decodeEventData (stripEnvelope fs) with
             | some d => some ⟨t, ts, raw, d⟩
             | none => none
           | none => none
         | none => none) := by
    intro t
    rw [show deserializeBaseEvent (.obj (("type", .str (eventTypeToString t)) :: fs))
        = (match eventTypeFromString (eventTypeToString t) with
           | some et =>
             match decodeOptWith "timestamp" fs asStr with
             | some ts =>
               match decodeOptWith "raw_event" fs some with
               | some raw =>
                 match decodeEventData (stripEnvelope fs) with
                 | some d => some ⟨et, ts, raw, d⟩
                 | none => none
               | none => none
             | none => none
           | none => none) from by
      simp only [deserializeBaseEvent, jlookup_cons_self, asStr,
        decodeOptWith_cons_ne "timestamp" "type" (Json.str (eventTypeToString t))
          fs asStr (by decide),
        decodeOptWith_cons_ne "raw_event" "type" (Json.str (eventTypeToString t))
          fs some (by decide),
        stripEnvelope_cons_type]]
    rw [eventTypeFromString_toString]
  rw [red t1, red t2]
  cases decodeOptWith "timestamp" fs asStr with
  | none => rfl
  | some ts =>
    cases decodeOptWith "raw_event" fs some with
    | none => rfl
    | some raw =>
      cases decodeEventData (stripEnvelope fs) with
      | none => rfl
      | some d => rfl

/-- Claim C5 (counterexample).  The `TEXT_MESSAGE_START` document with the
invalid role string `robot` does not fail decode: it is accepted as the
`TextMessageEnd` payload shape (the `role` field is ignored as an unknown
field of that later variant). -/
theorem C5_counterexample_invalid_role_accepted :
    deserializeBaseEvent c5Doc = some c5Decoded
    ∧ eventDataMatchesType c5Decoded.event_type c5Decoded.data = false :=
  ⟨rfl, rfl⟩

/-- Claim C5 (amended).  An invalid role string is never defaulted: the
`TextMessageStart` variant itself fails, and the untagged decoder instead
accepts the remaining field shape as the first later matching variant,
`TextMessageEnd`, which carries no role at all. -/
theorem C5_amended_invalid_role_never_defaulted (m s : String)
    (h : roleFromString s = none) :
    tryTextMessageStart [("message_id", .str m), ("role", .str s)] = none
    ∧ decodeEventData [("message_id", .str m), ("role", .str s)]
      = some (.TextMessageEnd ⟨m⟩) := by
  have hs : tryTextMessageStart [("message_id", .str m), ("role", .str s)] = none := by
    simp [tryTextMessageStart, decodeStrField, decodeOptWith, jlookup, asStr,
      decodeRole, h]
  refine ⟨hs, ?_⟩
  rw [show decodeEventData [("message_id", .str m), ("role", .str s)]
      = ((tryTextMessageStart [("message_id", .str m), ("role", .str s)]).map
          EventData.TextMessageStart
        <|> some (.TextMessageEnd ⟨m⟩)) from rfl]
  rw [hs]
  rfl

/-- Claim C5 (witness).  At the concrete invalid role `robot`. -/
theorem C5_amended_witness :
    roleFromString "robot" = none
    ∧ decodeEventData [("message_id", .str "m"), ("role", .str "robot")]
      = some (.TextMessageEnd ⟨"m"⟩) :=
  ⟨rfl, (C5_amended_invalid_role_never_defaulted "m" "robot" rfl).2⟩

/-- Claim C6 (confirmed).  A document whose `type` tag is not one of the
sixteen kind strings fails decode — no default or fallback variant — and the
stream decoder surfaces the failure as a `JsonError`. -/
theorem C6_unknown_kind_rejected :
    (∀ (fs : List (String × Json)) (s : String),
        jlookup "type" fs = some (.str s) →
        eventTypeFromString s = none →
        deserializeBaseEvent (.obj fs) = none)
    ∧ next_event c6Frame = .error .JsonError := by
  refine ⟨?_, rfl⟩
  intro fs s h1 h2
  simp only [deserializeBaseEvent, h1, asStr, h2]

/-- Claim C6 (witness).  At the concrete document
`\x7b"type":"NOT_A_KIND","thread_id":"t"\x7d`. -/
theorem C6_witness :
    deserializeBaseEvent
      (.obj [("type", .str "NOT_A_KIND"), ("thread_id", .str "t")]) = none :=
  C6_unknown_kind_rejected.1 _ "NOT_A_KIND" rfl rfl

/-- A key absent from an object's key list rules out every member carrying
that key. -/
theorem key_not_mem_fields {k : String} {fs : List (String × Json)}
    (h : ¬ k ∈ fs.map Prod.fst) : ∀ x : Json, ¬ (k, x) ∈ fs :=
  fun x hx => h (List.mem_map.mpr ⟨(k, x), hx, rfl⟩)

/-- Hexadecimal digits are never a newline. -/
theorem hexDigit_ne_newline : ∀ m : Nat, m < 16 → ¬ hexDigit m = '\n' := by
  decide

/-- String escaping never emits a raw newline character: a literal `\n` in
the data is escaped to the two characters `\` and `n`. -/
theorem escapeChar_no_newline (c : Char) : ¬ '\n' ∈ escapeChar c := by
  intro hmem
  simp only [escapeChar] at hmem
  split_ifs at hmem with h1 h2 h3 h4 h5 h6 h7 h8
  · exact absurd hmem (by decide)
  · exact absurd hmem (by decide)
  · exact absurd hmem (by decide)
  · exact absurd hmem (by decide)
  · exact absurd hmem (by decide)
  · exact absurd hmem (by decide)
  · exact absurd hmem (by decide)
  · simp only [hex4, List.mem_cons, List.not_mem_nil, or_false] at hmem
    rcases hmem with h | h | h | h | h | h
    · exact absurd h (by decide)
    · exact absurd h (by decide)
    · exact hexDigit_ne_newline _ (Nat.mod_lt _ (by decide)) h.symm
    · exact hexDigit_ne_newline _ (Nat.mod_lt _ (by decide)) h.symm
    · exact hexDigit_ne_newline _ (Nat.mod_lt _ (by decide)) h.symm
    · exact hexDigit_ne_newline _ (Nat.mod_lt _ (by decide)) h.symm
  · rw [List.mem_singleton] at hmem
    exact h3 hmem.symm

/-- A rendered JSON string literal contains no raw newline. -/
theorem escapeString_no_newline (s : String) : ¬ '\n' ∈ escapeString s := by
  intro hmem
  rw [escapeString] at hmem
  rcases List.mem_cons.mp hmem with h | hmem2
  · exact absurd h (by decide)
  rcases List.mem_append.mp hmem2 with h | h
  · obtain ⟨c, _, hc⟩ := List.mem_flatMap.mp h
    exact escapeChar_no_newline c hc
  · rw [List.mem_singleton] at h
    exact absurd h (by decide)

/-- Claim C7 (confirmed).  Every encoded frame is the literal prefix
`data: `, the compact JSON document, then exactly `\n\n`; the document's
first member is `type` holding the upper-snake-case kind string; an
`Option` field contributes a key exactly when it is set — in particular
`timestamp` and `raw_event` have no key at all when absent, and likewise
the payload optionals `role`, `reason`, `parent_message_id`, `tool_call`,
`code`, `details`; the concrete scenario-1 event encodes to the exact
expected bytes. -/
theorem C7_frame_shape_and_field_presence :
    (∀ e : BaseEvent, SseEncoder.encode_event_string e
        = "data: " ++ renderJson (serializeBaseEvent e) ++ "\n\n")
    ∧ (∀ e : BaseEvent, jlookup "type" (baseEventFields e)
        = some (.str (eventTypeToString e.event_type)))
    ∧ (∀ e : BaseEvent, serializedKeys e
        = "type" :: ((if e.timestamp.isSome then ["timestamp"] else [])
          ++ (if e.raw_event.isSome then ["raw_event"] else [])
          ++ eventDataKeys e.data))
    ∧ (∀ (k : String) (v : Option Json),
        (optField k v).map Prod.fst = if v.isSome then [k] else [])
    ∧ (∀ e : BaseEvent, ("timestamp" ∈ serializedKeys e ↔ e.timestamp.isSome)
        ∧ ("raw_event" ∈ serializedKeys e ↔ e.raw_event.isSome))
    ∧ (∀ v : TextMessageStartEvent,
        "role" ∈ eventDataKeys (.TextMessageStart v) ↔ v.role.isSome)
    ∧ (∀ v : RunAbortedEvent,
        "reason" ∈ eventDataKeys (.RunAborted v) ↔ v.reason.isSome)
    ∧ (∀ v : ToolCallStartEvent,
        "parent_message_id" ∈ eventDataKeys (.ToolCallStart v)
          ↔ v.parent_message_id.isSome)
    ∧ (∀ v : ToolCallEndEvent,
        "tool_call" ∈ eventDataKeys (.ToolCallEnd v) ↔ v.tool_call.isSome)
    ∧ (∀ v : ErrorEvent,
        ("code" ∈ eventDataKeys (.Error v) ↔ v.code.isSome)
        ∧ ("details" ∈ eventDataKeys (.Error v) ↔ v.details.isSome))
    ∧ (∀ c : Char, ¬ '\n' ∈ escapeChar c)
    ∧ (∀ s : String, ¬ '\n' ∈ escapeString s)
    ∧ SseEncoder.encode_event_string c7Event
      = "data: \x7b\"type\":\"TEXT_MESSAGE_CONTENT\",\"message_id\":\"m1\",\"delta\":\"Hi\"\x7d\n\n" := by
  refine ⟨fun _ => rfl, ?_, ?_, ?_, ?_, ?_, ?_, ?_, ?_, ?_,
    escapeChar_no_newline, escapeString_no_newline, rfl⟩
  · intro e
    simp [baseEventFields, jlookup_cons_self]
  · intro e
    obtain ⟨et, ts, raw, d⟩ := e
    cases ts <;> cases raw <;>
      simp [serializedKeys, baseEventFields, eventDataKeys, optField]
  · intro k v
    cases v <;> simp [optField]
  · intro e
    obtain ⟨et, ts, raw, d⟩ := e
    have hd := envelope_keys_not_in_eventDataKeys d
    have h1 : ∀ x : Json, ¬ ("timestamp", x) ∈ eventDataFields d :=
      key_not_mem_fields hd.1
    have h2 : ∀ x : Json, ¬ ("raw_event", x) ∈ eventDataFields d :=
      key_not_mem_fields hd.2.1
    cases ts <;> cases raw <;>
      simp [serializedKeys, baseEventFields, optField, h1, h2]
  · intro v
    obtain ⟨m, role⟩ := v
    cases role <;> simp [eventDataKeys, eventDataFields, optField]
  · intro v
    obtain ⟨t, r, reason⟩ := v
    cases reason <;> simp [eventDataKeys, eventDataFields, optField]
  · intro v
    obtain ⟨id, name, parent⟩ := v
    cases parent <;> simp [eventDataKeys, eventDataFields, optField]
  · intro v
    obtain ⟨id, tc⟩ := v
    cases tc <;> simp [eventDataKeys, eventDataFields, optField]
  · intro v
    obtain ⟨err, code, details⟩ := v
    cases code <;> cases details <;>
      simp [eventDataKeys, eventDataFields, optField]

/-- The batch-encoding loop, started from any accumulated string, appends
the in-order concatenation of the individual frames. -/
theorem encode_events_foldl_acc (events : List BaseEvent) :
    ∀ acc : String,
      events.foldl (fun result e => result ++ SseEncoder.encode_event_string e) acc
      = acc ++ (events.map SseEncoder.encode_event_string).foldr (· ++ ·) "" := by
  induction events with
  | nil => intro acc; simp
  | cons x rest ih =>
    intro acc
    simp only [List.foldl_cons, List.map_cons, List.foldr_cons, ih]
    rw [String.append_assoc]

/-- Claim C8 (code bug).  `encode_events_string` is exactly the in-order
concatenation of the individually encoded frames; decoding the concrete
batch `[c8e1, c8e2, c8e3]` returns three events, in order and with the
original type tags, but the middle event comes back with the
`TextMessageStart` payload variant instead of its original
`TextMessageContent` payload — the batch does not decode back to
`[e1, e2, e3]`. -/
theorem C8_batch_concatenation_decode :
    (∀ events : List BaseEvent,
        SseEncoder.encode_events_string events
        = (events.map SseEncoder.encode_event_string).foldr (· ++ ·) "")
    ∧ SseEncoder.encode_events_string [c8e1, c8e2, c8e3]
      = SseEncoder.encode_event_string c8e1 ++ SseEncoder.encode_event_string c8e2
        ++ SseEncoder.encode_event_string c8e3
    ∧ transformChunk (SseEncoder.encode_events_string [c8e1, c8e2, c8e3])
      = [c8e1, c8d2, c8e3]
    ∧ (transformChunk (SseEncoder.encode_events_string [c8e1, c8e2, c8e3])).map
        BaseEvent.event_type = [c8e1.event_type, c8e2.event_type, c8e3.event_type]
    ∧ ¬ EventData.ctorIdx c8d2.data = EventData.ctorIdx c8e2.data := by
  refine ⟨?_, rfl, rfl, rfl, by decide⟩
  intro events
  have h := encode_events_foldl_acc events ""
  rw [SseEncoder.encode_events_string, h]
  rfl

/-- Claim C9 (confirmed).  Any line (or whole chunk) not starting with
`data: ` yields no event and no error, on both decode paths; a stream of one
comment frame `: ping\n\n` followed by one data frame decodes to exactly one
event, whether the two frames arrive in one chunk (transform path) or as two
chunks (`next_event` path). -/
theorem C9_non_data_lines_skipped :
    (∀ line : String, strStartsWith line "data: " = false →
        transformLine line = none ∧ next_event line = .ok none)
    ∧ transformChunk (SseEncoder.encode_ping ++ c9Frame) = [c9Event]
    ∧ [SseEncoder.encode_ping, c9Frame].map next_event
      = [.ok none, .ok (some c9Event)] := by
  refine ⟨?_, rfl, rfl⟩
  intro line h
  constructor
  · simp [transformLine, h]
  · simp [next_event, h]

/-- Claim C9 (witness).  At the concrete comment line and ping frame. -/
theorem C9_witness :
    transformLine ": ping" = none
    ∧ next_event ": ping\n\n" = .ok none :=
  ⟨(C9_non_data_lines_skipped.1 ": ping" rfl).1,
   (C9_non_data_lines_skipped.1 ": ping\n\n" rfl).2⟩

end AgUi
